import Mathlib

/-!
Verification development for the katalyst-assistant backend.

The definitions below are a shallow embedding of the Python sources:
  src/backend/app/models/enums.py        (UserRole)
  src/backend/app/models/schemas.py      (history and config records)
  src/backend/app/services/prompt_engine.py (PromptEngine.generate_prompt)
  src/backend/app/services/llm_service.py   (EnhancedLLMWrapper)
  src/backend/app/services/chat_history_service.py (ChatHistoryService)
  src/backend/app/main.py                (process_query / process_public_query)

Outbound HTTP is modelled by passing the wire outcome of each attempt as an
explicit argument; datetimes are modelled as Nat timestamps; Python
exceptions become Except values whose constructors mirror the raise sites.
-/

namespace Katalyst

/-! ### models/enums.py -/

inductive UserRole where
  | FUNCTIONAL
  | TECHNICAL
  | ADMINISTRATOR
  | KEY_USER
  | END_USER
  | PROJECT_MANAGER
  | TESTER
deriving DecidableEq, BEq, Repr

/-- the .value attribute of each UserRole member (enums.py lines 4-10). -/
def UserRole.value : UserRole → String
  | .FUNCTIONAL => "functional"
  | .TECHNICAL => "technical"
  | .ADMINISTRATOR => "administrator"
  | .KEY_USER => "key_user"
  | .END_USER => "end_user"
  | .PROJECT_MANAGER => "project_manager"
  | .TESTER => "tester"

/-- the names of the seven enum members, in declaration order. -/
def roleNames : List String :=
  ["FUNCTIONAL", "TECHNICAL", "ADMINISTRATOR", "KEY_USER", "END_USER",
   "PROJECT_MANAGER", "TESTER"]

/-- model of the Python str.upper() call: uppercase the string character by
character. -/
def strUpper (s : String) : String :=
  ⟨s.data.map Char.toUpper⟩

/-- Python Enum lookup by member name, UserRole[n]: the member whose name is
exactly n, and none (a KeyError in Python) when no member name matches. -/
def userRoleByName (n : String) : Option UserRole :=
  if n = "FUNCTIONAL" then some .FUNCTIONAL
  else if n = "TECHNICAL" then some .TECHNICAL
  else if n = "ADMINISTRATOR" then some .ADMINISTRATOR
  else if n = "KEY_USER" then some .KEY_USER
  else if n = "END_USER" then some .END_USER
  else if n = "PROJECT_MANAGER" then some .PROJECT_MANAGER
  else if n = "TESTER" then some .TESTER
  else none

/-! ### models/schemas.py -/

/-- schemas.py ChatMessage (row shape shared with database.py ChatMessage);
created_at is a Nat timestamp. -/
structure ChatMessage where
  id : Nat
  user_id : Nat
  session_id : Nat
  message_type : String
  content : String
  role : String
  created_at : Nat
deriving DecidableEq, Repr

/-- schemas.py ChatResponse. -/
structure ChatResponse where
  id : Nat
  message_id : Nat
  content : String
  disclaimers : List String
  created_at : Nat
deriving DecidableEq, Repr

/-- schemas.py ChatHistoryItem: a persisted query message paired with its
optional response. -/
structure ChatHistoryItem where
  message : ChatMessage
  response : Option ChatResponse
deriving DecidableEq, Repr

/-- schemas.py SimpleHistoryItem (guest mode): role is the literal string
user or assistant. -/
structure SimpleHistoryItem where
  role : String
  content : String
deriving DecidableEq, Repr

/-- schemas.py LLMConfig with its default field values. -/
structure LLMConfig where
  model_name : String
  api_key : String
  max_requests_per_minute : Nat := 60
  max_retries : Nat := 3
  timeout_seconds : Nat := 30
deriving DecidableEq, Repr

/-- schemas.py PromptTemplate; response_format is the dict with the single
key sections, carried here as the sections list itself. -/
structure PromptTemplate where
  system_prompt : String
  response_format_sections : List String
deriving DecidableEq, Repr

/-- schemas.py ChatSession row. -/
structure ChatSessionRow where
  id : Nat
  user_id : Nat
  title : String
  created_at : Nat
  updated_at : Nat
deriving DecidableEq, Repr

/-- the history argument of PromptEngine.generate_prompt: either a list of
persisted pairs or a list of simple guest-mode turns (the Union type hint).
The constructor plays the role of the isinstance check on the first item. -/
inductive HistoryInput where
  | pairs (items : List ChatHistoryItem)
  | simple (items : List SimpleHistoryItem)
deriving DecidableEq, Repr

/-! ### services/prompt_engine.py -/

/-- the self.templates dict of PromptEngine.__init__, entries in source
order; the triple-quoted system prompts keep their embedded newlines and
the sixteen spaces of indentation of each continuation line. -/
def promptTemplates : List (UserRole × PromptTemplate) :=
  [(.TECHNICAL,
    { system_prompt := "You are an IFS ERP technical expert. Provide detailed\n                technical responses including code examples where appropriate. Focus on\n                implementation details, API usage, and technical best practices.",
      response_format_sections := ["Technical Overview", "Implementation Details",
        "Code Examples", "Best Practices", "Considerations"] }),
   (.FUNCTIONAL,
    { system_prompt := "You are an IFS ERP functional consultant. Explain\n                concepts in business terms, focusing on processes and business impact.\n                Avoid technical jargon unless necessary.",
      response_format_sections := ["Business Context", "Process Overview",
        "Impact Analysis", "Recommendations"] }),
   (.ADMINISTRATOR,
    { system_prompt := "You are an IFS ERP system administrator. Focus on\n                system configuration, security, performance tuning, and maintenance\n                procedures. Provide step-by-step instructions.",
      response_format_sections := ["Administrative Overview", "Configuration Steps",
        "Security Considerations", "Maintenance Tasks", "Troubleshooting"] }),
   (.KEY_USER,
    { system_prompt := "You are an IFS ERP key user expert. Provide practical\n                guidance on daily operations, best practices, and common workflows.\n                Include tips for training end users.",
      response_format_sections := ["Process Summary", "Step-by-Step Guide",
        "Best Practices", "Common Issues", "Training Tips"] }),
   (.END_USER,
    { system_prompt := "You are an IFS ERP End User specialist. Provide\n                simple, clear instructions using everyday language. Focus on practical,\n                task-oriented guidance.",
      response_format_sections := ["Simple Overview", "Quick Steps",
        "Tips and Tricks", "Common Questions"] }),
   (.PROJECT_MANAGER,
    { system_prompt := "You are an IFS ERP project management expert. Focus\n                on implementation strategies, timelines, resource planning, and risk\n                management.",
      response_format_sections := ["Project Overview", "Implementation Strategy",
        "Resource Requirements", "Risk Analysis", "Timeline Considerations"] }),
   (.TESTER,
    { system_prompt := "You are an IFS ERP testing specialist. Provide\n                guidance on test planning, test cases, and quality assurance\n                procedures.",
      response_format_sections := ["Testing Approach", "Test Scenarios",
        "Validation Steps", "Quality Checks", "Common Issues"] })]

/-- self.templates.get(role): dict lookup, none when the key is absent. -/
def templateFor (role : UserRole) : Option PromptTemplate :=
  (promptTemplates.find? (fun p => p.1 == role)).map (fun p => p.2)

/-- model of the Python str.join called as sep.join(parts) (respectively of
the chain of += string appends separated by sep). -/
def joinSep (sep : String) : List String → String
  | [] => ""
  | [s] => s
  | s :: rest => s ++ sep ++ joinSep sep rest

/-- concatenation of a list of strings, used to state what the history
accumulation loop produces. -/
def concatAll : List String → String
  | [] => ""
  | s :: rest => s ++ concatAll rest

/-- the text one persisted pair contributes inside the history loop
(prompt_engine.py lines 92-97): the User line, then the Assistant line
exactly when a response exists. -/
def pairTurnText (item : ChatHistoryItem) : String :=
  "User: " ++ item.message.content ++ "\n" ++
    match item.response with
    | some r => "Assistant: " ++ r.content ++ "\n"
    | none => ""

/-- the text one simple guest turn contributes (prompt_engine.py lines
98-103). -/
def simpleTurnText (item : SimpleHistoryItem) : String :=
  (if item.role = "user" then "User" else "Assistant") ++ ": " ++ item.content ++ "\n"

/-- history_str of generate_prompt (prompt_engine.py lines 86-105): empty
for a falsy input (None or empty list), otherwise header, transcript and
separator. -/
def formatHistory : Option HistoryInput → String
  | none => ""
  | some (.pairs items) =>
      if items.isEmpty then ""
      else "CONVERSATION HISTORY:\n" ++
        items.foldl (fun acc it => acc ++ pairTurnText it) "" ++ "\n---\n\n"
  | some (.simple items) =>
      if items.isEmpty then ""
      else "CONVERSATION HISTORY:\n" ++
        items.foldl (fun acc it => acc ++ simpleTurnText it) "" ++ "\n---\n\n"

/-- the prompt_parts list entries from RESPONSE STRUCTURE on (prompt_engine.py
lines 112-124), which follow the current-query part. -/
def restParts (template : PromptTemplate) (role : UserRole) : List String :=
  ["RESPONSE STRUCTURE:",
   "Please structure your response using the following sections: " ++
     joinSep ", " template.response_format_sections,
   "\nFORMATTING:",
   "- Use standard Markdown for all formatting (headings, lists, bold, italics, etc.).",
   "- **ONLY** use Markdown code blocks (```language ... ```) for actual code snippets (e.g., SQL, Python, API payloads). Do **NOT** wrap the entire response or regular text in code blocks.",
   "- Use bullet points (-) or numbered lists (1.) for lists.",
   "- Use Markdown tables (| Header | ... |) for structured data or statistics.",
   "- Use bold (**text**) and italics (*text*) for emphasis.",
   "\nREMEMBER:",
   "1. Use appropriate terminology for a " ++ role.value ++ " user.",
   "2. Provide practical examples where relevant.",
   "3. Include any necessary warnings or considerations.",
   "4. If the user\x27s CURRENT QUERY is very short, conversational (like \x27ok\x27, \x27thanks\x27, \x27that is good\x27), or unclear, provide a brief acknowledgement or ask a clarifying question instead of generating a full, structured response."]

/-- the full prompt_parts list of generate_prompt (prompt_engine.py lines
108-125). -/
def promptParts (template : PromptTemplate) (query : String) (role : UserRole)
    (historyStr : String) : List String :=
  [template.system_prompt,
   historyStr,
   "CURRENT QUERY:\nUser: " ++ query ++ "\n"] ++ restParts template role

/-- the ValueError raised by generate_prompt when the template lookup fails. -/
inductive PromptError where
  | noTemplateForRole
deriving DecidableEq, Repr

/-- PromptEngine.generate_prompt (prompt_engine.py lines 76-127). -/
def generate_prompt (query : String) (role : UserRole)
    (history : Option HistoryInput) : Except PromptError String :=
  match templateFor role with
  | none => .error .noTemplateForRole
  | some template =>
      .ok (joinSep "\n" (promptParts template query role (formatHistory history)))

/-- the prompt text produced on the success path of generate_prompt (and the
empty string on its error path, which never actually occurs). -/
def promptText (query : String) (role : UserRole)
    (history : Option HistoryInput) : String :=
  match generate_prompt query role history with
  | .ok p => p
  | .error _ => ""

/-! ### main.py role handling around generate_prompt -/

/-- failures of the prompt-generation step of a query route. -/
inductive QueryError where
  | unknownRole
  | noTemplateForRole
deriving DecidableEq, Repr

/-- the case-normalizing enum lookup UserRole[query_request.role.upper()]
of process_query (main.py line 335). -/
def roleFromString (s : String) : Option UserRole :=
  userRoleByName (strUpper s)

/-- prompt generation of the authenticated route process_query (main.py
lines 333-337): enum lookup of the uppercased caller role string, then
generate_prompt on the fetched persisted history. -/
def processQueryPrompt (roleStr query : String)
    (history : Option (List ChatHistoryItem)) : Except QueryError String :=
  match roleFromString roleStr with
  | none => .error .unknownRole
  | some r =>
      match generate_prompt query r (history.map .pairs) with
      | .error _ => .error .noTemplateForRole
      | .ok p => .ok p

/-- role_upper of process_public_query (main.py line 418): the uppercased
role when the role string is truthy, the literal FUNCTIONAL otherwise. -/
def publicRoleUpper (role : Option String) : String :=
  match role with
  | none => "FUNCTIONAL"
  | some s => if s ≠ "" then strUpper s else "FUNCTIONAL"

/-- the enum lookup UserRole[role_upper] of process_public_query (main.py
line 421). -/
def publicRoleLookup (role : Option String) : Option UserRole :=
  userRoleByName (publicRoleUpper role)

/-- prompt generation of the public route process_public_query (main.py
lines 418-423), whose history is the optional guest-mode simple list. -/
def processPublicPrompt (query : String) (role : Option String)
    (history : Option (List SimpleHistoryItem)) : Except QueryError String :=
  match publicRoleLookup role with
  | none => .error .unknownRole
  | some r =>
      match generate_prompt query r (history.map .simple) with
      | .error _ => .error .noTemplateForRole
      | .ok p => .ok p

/-! ### services/llm_service.py -/

/-- the canonical response shape the application expects:
choices[0].message.content. -/
structure CanonMessage where
  content : String
deriving DecidableEq, Repr

structure CanonChoice where
  message : CanonMessage
deriving DecidableEq, Repr

structure CanonResponse where
  choices : List CanonChoice
deriving DecidableEq, Repr

/-- one entry of candidates[0].content.parts of a Gemini body; the text
field is optional because the loop guards each part with a key test. -/
structure GeminiPart where
  text : Option String
deriving DecidableEq, Repr

structure GeminiContent where
  parts : List GeminiPart
deriving DecidableEq, Repr

structure GeminiCandidate where
  content : GeminiContent
deriving DecidableEq, Repr

/-- a parsed Gemini response body; candidates is none when the key is
absent, mirroring the membership test on line 96. -/
structure GeminiBody where
  candidates : Option (List GeminiCandidate)
deriving DecidableEq, Repr

/-- the outcome of one HTTP exchange: status code plus the body, readable
both as text (used on non-200) and as parsed json (used on 200). -/
structure HttpResponse (β : Type) where
  status : Nat
  text : String
  json : β
deriving DecidableEq, Repr

/-- what the wire does on one attempt: either the client raises
aiohttp.ClientError, or a response arrives. -/
inductive WireResult (β : Type) where
  | clientError (msg : String)
  | response (r : HttpResponse β)
deriving DecidableEq, Repr

/-- the exceptions that can escape one attempt before the generic handler
of _make_api_call runs, one constructor per raise site. -/
inductive RawFailure where
  | clientError (msg : String)
  | geminiHttpError (errorText : String)
  | geminiUnexpectedFormat
  | openaiHttpError (errorText : String)
deriving DecidableEq, Repr

/-- the exceptions _make_api_call lets propagate to the retry decorator:
ClientError is re-wrapped into the Network error message, everything else
is re-raised unchanged (llm_service.py lines 40-45). -/
inductive ApiError where
  | networkError (msg : String)
  | geminiHttpError (errorText : String)
  | geminiUnexpectedFormat
  | openaiHttpError (errorText : String)
deriving DecidableEq, Repr

/-- the content accumulation loop of _make_gemini_api_call (lines 97-100):
concatenate, in list order, the text of every part carrying a text key. -/
def geminiPartsText (parts : List GeminiPart) : String :=
  parts.foldl
    (fun acc part =>
      match part.text with
      | some t => acc ++ t
      | none => acc) ""

/-- EnhancedLLMWrapper._make_gemini_api_call (lines 47-113) given the wire
outcome: non-200 raises with the body text as detail; a 200 body with a
non-empty candidates list is transformed into the canonical shape; a 200
body whose candidates key is missing or empty raises the
unexpected-response-format error. The timeout is forwarded to the HTTP
client and does not otherwise affect the result. -/
def makeGeminiApiCall (timeout : Nat) (wire : WireResult GeminiBody) :
    Except RawFailure CanonResponse :=
  match wire with
  | .clientError msg => .error (.clientError msg)
  | .response r =>
      if r.status ≠ 200 then .error (.geminiHttpError r.text)
      else
        match r.json.candidates with
        | some (c0 :: _) =>
            .ok { choices := [{ message := { content := geminiPartsText c0.content.parts } }] }
        | some [] => .error .geminiUnexpectedFormat
        | none => .error .geminiUnexpectedFormat

/-- EnhancedLLMWrapper._make_openai_api_call (lines 115-147): non-200 raises
with the body text as detail, a 200 body is returned unchanged. -/
def makeOpenaiApiCall (timeout : Nat) (wire : WireResult CanonResponse) :
    Except RawFailure CanonResponse :=
  match wire with
  | .clientError msg => .error (.clientError msg)
  | .response r =>
      if r.status ≠ 200 then .error (.openaiHttpError r.text)
      else .ok r.json

/-- which provider protocol a config selects. -/
inductive Protocol where
  | gemini
  | openai
deriving DecidableEq, Repr

/-- the dispatch test of _make_api_call (line 35): the case-sensitive Python
substring test, gemini in config.model_name. -/
def protocolFor (config : LLMConfig) : Protocol :=
  if "gemini".toList <:+: config.model_name.toList then .gemini else .openai

/-- one attempt of _make_api_call (lines 27-45): compute the timeout
(config value, defaulting to 60 when falsy), dispatch on the model name,
wrap a ClientError into the Network error message and re-raise every other
exception unchanged. -/
def apiCallAttempt (config : LLMConfig) (gWire : WireResult GeminiBody)
    (oWire : WireResult CanonResponse) : Except ApiError CanonResponse :=
  let timeout := if config.timeout_seconds = 0 then 60 else config.timeout_seconds
  let result :=
    match protocolFor config with
    | .gemini => makeGeminiApiCall timeout gWire
    | .openai => makeOpenaiApiCall timeout oWire
  match result with
  | .ok resp => .ok resp
  | .error (.clientError m) => .error (.networkError ("Network error: " ++ m))
  | .error (.geminiHttpError t) => .error (.geminiHttpError t)
  | .error .geminiUnexpectedFormat => .error .geminiUnexpectedFormat
  | .error (.openaiHttpError t) => .error (.openaiHttpError t)

/-- the tenacity wait_exponential(multiplier=1, min=4, max=10) wait, in
time-units, computed after the failed attempt numbered attemptNumber. -/
def waitExponential (multiplier minWait maxWait attemptNumber : Nat) : Nat :=
  Nat.max (Nat.max 0 minWait) (Nat.min (multiplier * 2 ^ (attemptNumber - 1)) maxWait)

/-- an execution trace of the retry decorator: the final outcome, how many
attempts ran, and the waits slept between consecutive attempts. -/
structure RetryTrace (ε α : Type) where
  result : Except ε α
  attemptsUsed : Nat
  waits : List Nat
deriving Repr

/-- the tenacity driver with stop_after_attempt and reraise=True: run the
attempt numbered attemptNumber; on success stop; on failure, if attempts
remain (fuel), sleep the exponential wait and try again, otherwise re-raise
the exception of this final attempt unchanged. -/
def retryLoop (attempt : Nat → Except ε α) (attemptNumber : Nat) :
    Nat → RetryTrace ε α
  | 0 => { result := attempt attemptNumber, attemptsUsed := 1, waits := [] }
  | fuel + 1 =>
      match attempt attemptNumber with
      | .ok a => { result := .ok a, attemptsUsed := 1, waits := [] }
      | .error _ =>
          let rest := retryLoop attempt (attemptNumber + 1) fuel
          { result := rest.result,
            attemptsUsed := rest.attemptsUsed + 1,
            waits := waitExponential 1 4 10 attemptNumber :: rest.waits }

/-- EnhancedLLMWrapper._make_api_call under its retry decorator (lines
22-45): stop_after_attempt(3), wait_exponential(multiplier=1, min=4,
max=10), reraise=True; the wire outcome of each numbered attempt is
supplied per protocol. -/
def makeApiCall (config : LLMConfig) (gWires : Nat → WireResult GeminiBody)
    (oWires : Nat → WireResult CanonResponse) : RetryTrace ApiError CanonResponse :=
  retryLoop (fun n => apiCallAttempt config (gWires n) (oWires n)) 1 2

/-! ### services/chat_history_service.py -/

/-- the three tables touched by ChatHistoryService, each as a list of rows
in storage order. -/
structure Database where
  sessions : List ChatSessionRow
  messages : List ChatMessage
  responses : List ChatResponse
deriving Repr

/-- ChatHistoryService.get_session_by_id (lines 41-50): first session row
matching both the session id and the user id. -/
def get_session_by_id (db : Database) (session_id user_id : Nat) :
    Option ChatSessionRow :=
  (db.sessions.filter (fun s => s.id == session_id && s.user_id == user_id)).head?

/-- the message query of get_session_messages (lines 146-149): messages of
the session whose message_type is query. -/
def sessionQueryMessages (db : Database) (session_id : Nat) : List ChatMessage :=
  db.messages.filter (fun m => m.session_id == session_id && m.message_type == "query")

/-- the ORDER BY created_at ascending comparison. -/
def createdAtLe (a b : ChatMessage) : Prop :=
  a.created_at ≤ b.created_at

instance : DecidableRel createdAtLe :=
  fun a b => Nat.decLe a.created_at b.created_at

instance : IsTotal ChatMessage createdAtLe :=
  ⟨fun a b => Nat.le_total a.created_at b.created_at⟩

instance : IsTrans ChatMessage createdAtLe :=
  ⟨fun _ _ _ h h2 => Nat.le_trans h h2⟩

/-- the per-message response query of get_session_messages (lines 172-175):
first stored response whose message_id matches. -/
def responseFor (db : Database) (m : ChatMessage) : Option ChatResponse :=
  (db.responses.filter (fun r => r.message_id == m.id)).head?

/-- ChatHistoryService.get_session_messages (lines 138-183): empty when the
session is missing or owned by another user; otherwise the query messages
of the session sorted ascending by creation time, the limit applied to that
ascending order, each message paired with its first stored response. -/
def get_session_messages (db : Database) (session_id user_id : Nat)
    (limit : Option Nat) : List ChatHistoryItem :=
  match get_session_by_id db session_id user_id with
  | none => []
  | some _ =>
      let sorted := List.insertionSort createdAtLe (sessionQueryMessages db session_id)
      let limited :=
        match limit with
        | some n => sorted.take n
        | none => sorted
      limited.map (fun m => { message := m, response := responseFor db m })

/-! ### derived decomposition of the empty-history prompt, and concrete
fixtures used by witnesses -/

/-- the history header literal emitted by generate_prompt. -/
def headerText : String := "CONVERSATION HISTORY:"

/-- the template of a role, with a dummy for the impossible missing case. -/
def templateOf (role : UserRole) : PromptTemplate :=
  match templateFor role with
  | some t => t
  | none => { system_prompt := "", response_format_sections := [] }

/-- everything the empty-history prompt places before the caller query. -/
def preStr (role : UserRole) : String :=
  (templateOf role).system_prompt ++ "\n" ++ "" ++ "\n" ++ "CURRENT QUERY:\nUser: "

/-- everything the empty-history prompt places after the newline that
follows the caller query. -/
def promptTail (role : UserRole) : String :=
  "\n" ++ joinSep "\n" (restParts (templateOf role) role)

/-- Bool scan used to certify substring absence on concrete strings: does
pat occur as a contiguous run inside l. -/
def containsPat (pat : List Char) : List Char → Bool
  | [] => pat.isEmpty
  | a :: rest => pat.isPrefixOf (a :: rest) || containsPat pat rest

/-- Bool scan used to certify that no occurrence straddles a boundary: does
some non-empty suffix of l begin pat. -/
def anyTailPrefixB (pat : List Char) : List Char → Bool
  | [] => false
  | a :: rest => (a :: rest).isPrefixOf pat || anyTailPrefixB pat rest

/-- the LLMConfig built by main.py with the default model name. -/
def geminiConfig : LLMConfig :=
  { model_name := "gemini-2.0-flash-lite", api_key := "" }

/-- a wire on which every attempt fails with a transport error. -/
def gwDown : Nat → WireResult GeminiBody :=
  fun _ => .clientError "connection reset"

/-- the OpenAI-side wire for fixtures that never reach it. -/
def owDown : Nat → WireResult CanonResponse :=
  fun _ => .clientError "connection reset"

/-- a wire on which every attempt returns 200 with an empty candidates
list. -/
def emptyCandidatesWire : Nat → WireResult GeminiBody :=
  fun _ => .response { status := 200, text := "", json := { candidates := some [] } }

/-- fixture: the persisted pair with query A and response B. -/
def msgA : ChatMessage :=
  { id := 1, user_id := 1, session_id := 1, message_type := "query",
    content := "A", role := "functional", created_at := 1 }

def respB : ChatResponse :=
  { id := 1, message_id := 1, content := "B", disclaimers := [], created_at := 1 }

/-- fixture: the persisted query C that has no response yet. -/
def msgC : ChatMessage :=
  { id := 2, user_id := 1, session_id := 1, message_type := "query",
    content := "C", role := "functional", created_at := 2 }

def histABC : List ChatHistoryItem :=
  [{ message := msgA, response := some respB }, { message := msgC, response := none }]

/-- fixture session owned by user 7. -/
def wSession : ChatSessionRow :=
  { id := 1, user_id := 7, title := "t", created_at := 0, updated_at := 0 }

def wMsgOld : ChatMessage :=
  { id := 11, user_id := 7, session_id := 1, message_type := "query",
    content := "first question", role := "functional", created_at := 5 }

def wMsgNew : ChatMessage :=
  { id := 12, user_id := 7, session_id := 1, message_type := "query",
    content := "second question", role := "functional", created_at := 9 }

/-- fixture database whose messages are stored newest first. -/
def wDb : Database :=
  { sessions := [wSession], messages := [wMsgNew, wMsgOld], responses := [] }

/-! ## Helper lemmas -/

theorem userRoleByName_none (n : String) :
    userRoleByName n = none ↔ n ∉ roleNames := by
  unfold userRoleByName roleNames
  split_ifs with h1 h2 h3 h4 h5 h6 h7 <;> simp_all

theorem foldl_append_map {β : Type} (f : β → String) :
    ∀ (l : List β) (a : String),
      l.foldl (fun acc it => acc ++ f it) a = a ++ concatAll (l.map f)
  | [], a => by simp [concatAll, String.append_empty]
  | x :: xs, a => by
    simp only [List.foldl_cons, List.map_cons, concatAll]
    rw [foldl_append_map f xs (a ++ f x), String.append_assoc]

theorem prefix_before_sep {α : Type} {c : α} {b : List α} :
    ∀ (t a v : List α), c ∉ t → a ++ c :: b = t ++ v → t <+: a
  | [], a, _, _, _ => ⟨a, rfl⟩
  | y :: t', a, v, hc, h => by
    cases a with
    | nil =>
      rw [List.nil_append] at h
      obtain ⟨h1, _⟩ := List.cons.inj h
      exact absurd (h1 ▸ List.mem_cons_self y t') hc
    | cons x a' =>
      rw [List.cons_append, List.cons_append] at h
      obtain ⟨h1, h2⟩ := List.cons.inj h
      obtain ⟨w, hw⟩ :=
        prefix_before_sep t' a' v (fun hm => hc (List.mem_cons_of_mem y hm)) h2
      exact ⟨w, by rw [List.cons_append, hw, h1]⟩

theorem split_at_sep_aux {α : Type} {c : α} {t b : List α} (hc : c ∉ t) :
    ∀ (u a v : List α), a ++ c :: b = u ++ (t ++ v) → t <:+: a ∨ t <:+: b
  | [], a, v, h => by
    rw [List.nil_append] at h
    obtain ⟨w, hw⟩ := prefix_before_sep t a v hc h
    exact Or.inl ⟨[], w, by rw [List.nil_append, hw]⟩
  | y :: u', a, v, h => by
    cases a with
    | nil =>
      rw [List.nil_append, List.cons_append] at h
      obtain ⟨_, h2⟩ := List.cons.inj h
      exact Or.inr ⟨u', v, by rw [List.append_assoc]; exact h2.symm⟩
    | cons x a' =>
      rw [List.cons_append, List.cons_append] at h
      obtain ⟨_, h2⟩ := List.cons.inj h
      rcases split_at_sep_aux hc u' a' v h2 with ⟨p, q', hpq⟩ | hr
      · exact Or.inl ⟨x :: p, q', by rw [List.cons_append, List.cons_append, hpq]⟩
      · exact Or.inr hr

/-- an occurrence of t in a list with a separator character c that t does
not contain lies entirely on one side of the separator. -/
theorem split_at_sep {α : Type} {c : α} {t a b : List α} (hc : c ∉ t)
    (h : t <:+: a ++ c :: b) : t <:+: a ∨ t <:+: b := by
  obtain ⟨u, v, huv⟩ := h
  exact split_at_sep_aux hc u a v (by rw [← huv, List.append_assoc])

/-- an occurrence of t in s ++ q lies in s, lies in q, or begins with a
non-empty suffix of s. -/
theorem occurrence_cases {α : Type} {t s q : List α} (h : t <:+: s ++ q) :
    t <:+: s ∨ t <:+: q ∨ ∃ s₂ ∈ s.tails, s₂ ≠ [] ∧ s₂ <+: t := by
  obtain ⟨u, v, huv⟩ := h
  by_cases hlen : s.length ≤ u.length
  · have hu : u <+: s ++ q := ⟨t ++ v, by rw [← List.append_assoc, huv]⟩
    have hs : s <+: s ++ q := ⟨q, rfl⟩
    obtain ⟨u', hu'⟩ := List.prefix_of_prefix_length_le hs hu hlen
    refine Or.inr (Or.inl ⟨u', v, ?_⟩)
    have hcancel : s ++ (u' ++ t ++ v) = s ++ q := by
      rw [← huv, ← hu']
      simp [List.append_assoc]
    exact List.append_cancel_left hcancel
  · push_neg at hlen
    have hu : u <+: s ++ q := ⟨t ++ v, by rw [← List.append_assoc, huv]⟩
    have hs : s <+: s ++ q := ⟨q, rfl⟩
    obtain ⟨s₂, hs₂⟩ := List.prefix_of_prefix_length_le hu hs (Nat.le_of_lt hlen)
    have hs₂ne : s₂ ≠ [] := by
      intro h0
      rw [h0, List.append_nil] at hs₂
      have := congrArg List.length hs₂
      omega
    have heq : s₂ ++ q = t ++ v := by
      have h1 : u ++ (s₂ ++ q) = u ++ (t ++ v) := by
        rw [← List.append_assoc, hs₂, ← List.append_assoc, huv]
      exact List.append_cancel_left h1
    by_cases hts : t.length ≤ s₂.length
    · have h1 : t <+: s₂ ++ q := ⟨v, heq.symm⟩
      have h2 : s₂ <+: s₂ ++ q := ⟨q, rfl⟩
      obtain ⟨w, hw⟩ := List.prefix_of_prefix_length_le h1 h2 hts
      refine Or.inl ⟨u, w, ?_⟩
      rw [← hs₂, ← hw]
      simp [List.append_assoc]
    · push_neg at hts
      have h1 : t <+: s₂ ++ q := ⟨v, heq.symm⟩
      have h2 : s₂ <+: s₂ ++ q := ⟨q, rfl⟩
      have hst := List.prefix_of_prefix_length_le h2 h1 (Nat.le_of_lt hts)
      exact Or.inr (Or.inr ⟨s₂, (List.mem_tails s₂ s).mpr ⟨u, hs₂⟩, hs₂ne, hst⟩)

/-- with empty history the generated prompt is the system prompt, a blank
history slot, the current-query block around the caller query, and the tail
parts, joined by newlines. -/
theorem gp_eq (q : String) (role : UserRole) :
    promptText q role none =
      (templateOf role).system_prompt ++ "\n" ++
        ("" ++ "\n" ++
          (("CURRENT QUERY:\nUser: " ++ q ++ "\n") ++ "\n" ++
            joinSep "\n" (restParts (templateOf role) role))) := by
  cases role <;> rfl

/-- character-level decomposition of the empty-history prompt around the
caller query. -/
theorem promptText_none_data (q : String) (role : UserRole) :
    (promptText q role none).data =
      (preStr role).data ++ (q.data ++ '\n' :: (promptTail role).data) := by
  have hnl : ("\n" : String).data = ['\n'] := rfl
  have he : ("" : String).data = ([] : List Char) := rfl
  rw [gp_eq]
  simp [preStr, promptTail, String.data_append, hnl, he, List.append_assoc]

theorem containsPat_iff (pat : List Char) :
    ∀ l, containsPat pat l = true ↔ pat <:+: l
  | [] => by simp [containsPat, List.infix_nil, List.isEmpty_iff]
  | a :: rest => by
    simp [containsPat, Bool.or_eq_true, List.isPrefixOf_iff_prefix,
      containsPat_iff pat rest, List.infix_cons_iff]

theorem anyTailPrefixB_iff (pat : List Char) :
    ∀ l, anyTailPrefixB pat l = true ↔ ∃ s ∈ l.tails, s ≠ [] ∧ s <+: pat
  | [] => by simp [anyTailPrefixB]
  | a :: rest => by
    simp [anyTailPrefixB, List.isPrefixOf_iff_prefix,
      anyTailPrefixB_iff pat rest, List.tails_cons]

set_option maxRecDepth 100000 in
theorem preStr_containsPat_false (role : UserRole) :
    containsPat headerText.data (preStr role).data = false := by
  cases role <;> rfl

set_option maxRecDepth 100000 in
theorem preStr_anyTail_false (role : UserRole) :
    anyTailPrefixB headerText.data (preStr role).data = false := by
  cases role <;> rfl

set_option maxRecDepth 100000 in
theorem promptTail_containsPat_false (role : UserRole) :
    containsPat headerText.data (promptTail role).data = false := by
  cases role <;> rfl

theorem preStr_no_header (role : UserRole) :
    ¬ headerText.data <:+: (preStr role).data := by
  intro h
  have hb := (containsPat_iff headerText.data ((preStr role).data)).mpr h
  rw [preStr_containsPat_false role] at hb
  exact Bool.noConfusion hb

theorem preStr_no_header_straddle (role : UserRole) :
    ∀ s ∈ ((preStr role).data).tails, ¬(s ≠ [] ∧ s <+: headerText.data) := by
  intro s hs hcontra
  have hb := (anyTailPrefixB_iff headerText.data ((preStr role).data)).mpr
    ⟨s, hs, hcontra.1, hcontra.2⟩
  rw [preStr_anyTail_false role] at hb
  exact Bool.noConfusion hb

theorem promptTail_no_header (role : UserRole) :
    ¬ headerText.data <:+: (promptTail role).data := by
  intro h
  have hb := (containsPat_iff headerText.data ((promptTail role).data)).mpr h
  rw [promptTail_containsPat_false role] at hb
  exact Bool.noConfusion hb

/-- stepping lemma: a failed attempt with fuel remaining recurses after the
exponential wait. -/
theorem retryLoop_err {ε α : Type} {f : Nat → Except ε α} {n : Nat} {e : ε} (fuel : Nat)
    (h : f n = .error e) :
    retryLoop f n (fuel + 1) =
      { result := (retryLoop f (n + 1) fuel).result,
        attemptsUsed := (retryLoop f (n + 1) fuel).attemptsUsed + 1,
        waits := waitExponential 1 4 10 n :: (retryLoop f (n + 1) fuel).waits } := by
  simp only [retryLoop, h]

/-- stepping lemma: a successful attempt stops the driver at once. -/
theorem retryLoop_ok {ε α : Type} {f : Nat → Except ε α} {n : Nat} {a : α} (fuel : Nat)
    (h : f n = .ok a) :
    retryLoop f n (fuel + 1) = { result := .ok a, attemptsUsed := 1, waits := [] } := by
  simp only [retryLoop, h]

/-- three consecutive failures exhaust the three-attempt budget: the trace
holds the third error, three attempts, and the two exponential waits. -/
theorem retryLoop_three_errors {ε α : Type} {f : Nat → Except ε α} {e1 e2 e3 : ε}
    (h1 : f 1 = .error e1) (h2 : f 2 = .error e2) (h3 : f 3 = .error e3) :
    retryLoop f 1 2 =
      { result := .error e3, attemptsUsed := 3,
        waits := [waitExponential 1 4 10 1, waitExponential 1 4 10 2] } := by
  have s3 : retryLoop f 3 0 = { result := .error e3, attemptsUsed := 1, waits := [] } := by
    have hz : retryLoop f 3 0 = { result := f 3, attemptsUsed := 1, waits := [] } := rfl
    rw [hz, h3]
  have s2 : retryLoop f 2 1 =
      { result := (retryLoop f 3 0).result,
        attemptsUsed := (retryLoop f 3 0).attemptsUsed + 1,
        waits := waitExponential 1 4 10 2 :: (retryLoop f 3 0).waits } :=
    retryLoop_err 0 h2
  have s1 : retryLoop f 1 2 =
      { result := (retryLoop f 2 1).result,
        attemptsUsed := (retryLoop f 2 1).attemptsUsed + 1,
        waits := waitExponential 1 4 10 1 :: (retryLoop f 2 1).waits } :=
    retryLoop_err 1 h1
  rw [s1, s2, s3]

/-! ## Claim theorems -/

/-- C1: for every caller-supplied role string whose uppercased form is not
one of the seven enumerated role names, prompt generation on the
authenticated route fails with the UnknownRole error raised at the
case-normalizing enum lookup, and never falls back to any template. -/
theorem unknown_role_rejected (s query : String)
    (history : Option (List ChatHistoryItem))
    (h : strUpper s ∉ roleNames) :
    processQueryPrompt s query history = .error .unknownRole := by
  have hn : userRoleByName (strUpper s) = none := (userRoleByName_none (strUpper s)).mpr h
  unfold processQueryPrompt roleFromString
  rw [hn]

/-- witness for C1 at the concrete role string wizard. -/
theorem unknown_role_rejected_witness :
    strUpper "wizard" ∉ roleNames ∧
    processQueryPrompt "wizard" "How do I approve a PO?" none = .error .unknownRole :=
  ⟨by decide, unknown_role_rejected "wizard" "How do I approve a PO?" none (by decide)⟩

/-- C3: for every non-empty persisted-pair history, the formatter emits the
header line, then per turn the User line followed by the Assistant line
exactly when a response exists, then the separator. -/
theorem persisted_history_format (items : List ChatHistoryItem) (h : items ≠ []) :
    formatHistory (some (.pairs items)) =
      "CONVERSATION HISTORY:\n" ++ concatAll (items.map pairTurnText) ++ "\n---\n\n" := by
  have hne : items.isEmpty = false := by
    cases items with
    | nil => exact absurd rfl h
    | cons x xs => rfl
  simp [formatHistory, hne, foldl_append_map, String.empty_append]

/-- witness for C3: the two-turn history with query A answered B and query
C unanswered formats to exactly the specified string. -/
theorem persisted_history_format_witness :
    histABC ≠ [] ∧
    formatHistory (some (.pairs histABC)) =
      "CONVERSATION HISTORY:\nUser: A\nAssistant: B\nUser: C\n\n---\n\n" :=
  ⟨by decide, (persisted_history_format histABC (by decide)).trans (by rfl)⟩

/-- C7 counterexample: with empty history, a caller query that itself
contains the header text yields a composed prompt that does contain the
literal header, so the unconditional never-contains reading of the claim is
false. -/
theorem header_in_prompt_cex :
    headerText.data <:+: (promptText "CONVERSATION HISTORY:" .FUNCTIONAL none).data :=
  ⟨(preStr .FUNCTIONAL).data, '\n' :: (promptTail .FUNCTIONAL).data, by
    rw [promptText_none_data, List.append_assoc]
    rfl⟩

/-- C7 (amended): for empty or absent history the formatted history is the
empty string, and the composed prompt contains the literal header nowhere,
provided the caller query does not itself contain the header text. -/
theorem empty_history_no_header (query : String) (role : UserRole)
    (h : ¬ headerText.data <:+: query.data) :
    formatHistory none = "" ∧
    formatHistory (some (.pairs [])) = "" ∧
    formatHistory (some (.simple [])) = "" ∧
    ¬ headerText.data <:+: (promptText query role none).data := by
  refine ⟨rfl, rfl, rfl, ?_⟩
  intro hin
  rw [promptText_none_data] at hin
  rcases occurrence_cases hin with hpre | hq | ⟨s₂, hmem, hne, hpref⟩
  · exact preStr_no_header role hpre
  · rcases split_at_sep (by decide) hq with hq' | htail
    · exact h hq'
    · exact promptTail_no_header role htail
  · exact preStr_no_header_straddle role s₂ hmem ⟨hne, hpref⟩

/-- witness for C7 at a concrete header-free query. -/
theorem empty_history_no_header_witness :
    (¬ headerText.data <:+: ("Explain POs" : String).data) ∧
    ¬ headerText.data <:+: (promptText "Explain POs" .FUNCTIONAL none).data :=
  ⟨by decide, (empty_history_no_header "Explain POs" .FUNCTIONAL (by decide)).2.2.2⟩

/-- C9: on the public route a missing or empty role string is replaced by
FUNCTIONAL before the enum lookup, so the functional template is used, and
only a non-empty string whose uppercased form is outside the role set
fails. -/
theorem public_empty_role_defaults_functional :
    publicRoleLookup none = some .FUNCTIONAL ∧
    publicRoleLookup (some "") = some .FUNCTIONAL ∧
    (∀ query history, processPublicPrompt query none history =
        .ok (promptText query .FUNCTIONAL (history.map .simple))) ∧
    (∀ query history, processPublicPrompt query (some "") history =
        .ok (promptText query .FUNCTIONAL (history.map .simple))) ∧
    ∀ s, s ≠ "" → (publicRoleLookup (some s) = none ↔ strUpper s ∉ roleNames) := by
  refine ⟨rfl, rfl, fun query history => rfl, fun query history => rfl, fun s hs => ?_⟩
  simp only [publicRoleLookup, publicRoleUpper]
  rw [if_pos hs]
  exact userRoleByName_none (strUpper s)

/-- witness for C9: the non-empty role string wizard fails the public
lookup. -/
theorem public_empty_role_defaults_functional_witness :
    ("wizard" : String) ≠ "" ∧ publicRoleLookup (some "wizard") = none :=
  ⟨by decide,
    (public_empty_role_defaults_functional.2.2.2.2 "wizard" (by decide)).mpr (by decide)⟩

/-- C4: the Gateway takes the Gemini branch exactly when the model name
contains the case-sensitive substring gemini, and the OpenAI branch
otherwise; the default Gemini model routes to Gemini and gpt-4 routes to
OpenAI. -/
theorem gemini_dispatch :
    (∀ config : LLMConfig,
        protocolFor config = .gemini ↔ "gemini".toList <:+: config.model_name.toList) ∧
    protocolFor { model_name := "gemini-2.0-flash-lite", api_key := "" } = .gemini ∧
    protocolFor { model_name := "gpt-4", api_key := "" } = .openai := by
  refine ⟨fun config => ?_, by decide, by decide⟩
  by_cases hg : "gemini".toList <:+: config.model_name.toList
  · simp [protocolFor, hg]
  · simp [protocolFor, hg]

/-- C5: every 200-status Gemini response with a non-empty candidates list
yields the canonical shape whose single content string concatenates, in
list order, the text of every part of the first candidate; with two parts
the two texts are concatenated in order. -/
theorem gemini_success_concat :
    (∀ (timeout : Nat) (txt : String) (c0 : GeminiCandidate)
        (rest : List GeminiCandidate),
        makeGeminiApiCall timeout
            (.response { status := 200, text := txt,
                         json := { candidates := some (c0 :: rest) } }) =
          .ok { choices := [{ message := { content := geminiPartsText c0.content.parts } }] }) ∧
    (∀ t1 t2 : String,
        geminiPartsText [{ text := some t1 }, { text := some t2 }] = t1 ++ t2) :=
  ⟨fun _ _ _ _ => rfl, fun _ _ => rfl⟩

/-- C2: the Gateway makes exactly 3 sequential attempts with exponential
backoff starting at 4 time-units and capped at 10, treating every failure
cause alike; after the third failure it re-raises the final attempt
exception unmodified, and an earlier success returns the canonical response
with no error. -/
theorem retry_policy_spec (config : LLMConfig) (gWires : Nat → WireResult GeminiBody)
    (oWires : Nat → WireResult CanonResponse) (e1 e2 e3 : ApiError) (resp : CanonResponse) :
    (apiCallAttempt config (gWires 1) (oWires 1) = .error e1 →
      apiCallAttempt config (gWires 2) (oWires 2) = .error e2 →
      apiCallAttempt config (gWires 3) (oWires 3) = .error e3 →
      makeApiCall config gWires oWires =
        { result := .error e3, attemptsUsed := 3, waits := [4, 4] }) ∧
    (apiCallAttempt config (gWires 1) (oWires 1) = .ok resp →
      makeApiCall config gWires oWires =
        { result := .ok resp, attemptsUsed := 1, waits := [] }) ∧
    (apiCallAttempt config (gWires 1) (oWires 1) = .error e1 →
      apiCallAttempt config (gWires 2) (oWires 2) = .ok resp →
      makeApiCall config gWires oWires =
        { result := .ok resp, attemptsUsed := 2, waits := [4] }) ∧
    (∀ n, 4 ≤ waitExponential 1 4 10 n ∧ waitExponential 1 4 10 n ≤ 10) := by
  refine ⟨fun h1 h2 h3 => ?_, fun h1 => ?_, fun h1 h2 => ?_, fun n => ?_⟩
  · exact retryLoop_three_errors
      (f := fun n => apiCallAttempt config (gWires n) (oWires n)) h1 h2 h3
  · exact retryLoop_ok (f := fun n => apiCallAttempt config (gWires n) (oWires n))
      1 h1
  · have s2 : retryLoop (fun n => apiCallAttempt config (gWires n) (oWires n)) 2 1 =
        { result := .ok resp, attemptsUsed := 1, waits := [] } :=
      retryLoop_ok 0 h2
    have s1 : retryLoop (fun n => apiCallAttempt config (gWires n) (oWires n)) 1 2 =
        { result := (retryLoop (fun n => apiCallAttempt config (gWires n) (oWires n)) 2 1).result,
          attemptsUsed :=
            (retryLoop (fun n => apiCallAttempt config (gWires n) (oWires n)) 2 1).attemptsUsed + 1,
          waits := waitExponential 1 4 10 1 ::
            (retryLoop (fun n => apiCallAttempt config (gWires n) (oWires n)) 2 1).waits } :=
      retryLoop_err 1 h1
    show retryLoop (fun n => apiCallAttempt config (gWires n) (oWires n)) 1 2 = _
    rw [s1, s2]
    rfl
  · unfold waitExponential
    constructor
    · exact le_trans (by decide) (Nat.le_max_left (Nat.max 0 4) _)
    · exact Nat.max_le.mpr ⟨by decide, Nat.min_le_right _ _⟩

/-- witness for C2: with the transport failing on every attempt, the call
makes three attempts, waits 4 then 4, and re-raises the wrapped network
error of the third attempt. -/
theorem retry_policy_spec_witness :
    apiCallAttempt geminiConfig (gwDown 1) (owDown 1) =
      .error (.networkError "Network error: connection reset") ∧
    makeApiCall geminiConfig gwDown owDown =
      { result := .error (.networkError "Network error: connection reset"),
        attemptsUsed := 3, waits := [4, 4] } :=
  ⟨rfl,
    (retry_policy_spec geminiConfig gwDown owDown
        (.networkError "Network error: connection reset")
        (.networkError "Network error: connection reset")
        (.networkError "Network error: connection reset")
        { choices := [] }).1 rfl rfl rfl⟩

/-- C6 counterexample: when every attempt returns a 200 Gemini body with an
empty candidates list, the unexpected-format failure is retried like any
other failure: the call consumes all 3 attempts rather than surfacing the
error immediately after 1. -/
theorem gemini_format_error_not_retried_cex :
    (makeApiCall geminiConfig emptyCandidatesWire owDown).result =
      .error .geminiUnexpectedFormat ∧
    (makeApiCall geminiConfig emptyCandidatesWire owDown).attemptsUsed = 3 ∧
    (makeApiCall geminiConfig emptyCandidatesWire owDown).attemptsUsed ≠ 1 :=
  ⟨rfl, rfl, by decide⟩

/-- C6 (amended): a 200-status Gemini body with a missing or empty
candidates list makes the attempt fail with the unexpected-format error,
and that failure is retried like every other failure, consuming the full
3-attempt budget before being surfaced. -/
theorem gemini_format_error_retried (config : LLMConfig) (body : GeminiBody)
    (txt : String) (timeout : Nat) (oWires : Nat → WireResult CanonResponse)
    (hb : body.candidates = none ∨ body.candidates = some [])
    (hp : protocolFor config = .gemini) :
    makeGeminiApiCall timeout (.response { status := 200, text := txt, json := body }) =
      .error .geminiUnexpectedFormat ∧
    makeApiCall config (fun _ => .response { status := 200, text := txt, json := body }) oWires =
      { result := .error .geminiUnexpectedFormat, attemptsUsed := 3, waits := [4, 4] } := by
  have hg : ∀ tmo : Nat,
      makeGeminiApiCall tmo (.response { status := 200, text := txt, json := body }) =
        .error .geminiUnexpectedFormat := by
    intro tmo
    rcases hb with hb | hb <;> simp [makeGeminiApiCall, hb]
  have ha : ∀ n : Nat,
      apiCallAttempt config (.response { status := 200, text := txt, json := body })
        (oWires n) = .error .geminiUnexpectedFormat := by
    intro n
    simp [apiCallAttempt, hp, hg]
  exact ⟨hg timeout,
    retryLoop_three_errors
      (f := fun n => apiCallAttempt config
        ((fun _ => WireResult.response { status := 200, text := txt, json := body }) n)
        (oWires n))
      (ha 1) (ha 2) (ha 3)⟩

/-- witness for C6 at the concrete empty-candidates body. -/
theorem gemini_format_error_retried_witness :
    (GeminiBody.candidates { candidates := some [] } = none ∨
      GeminiBody.candidates { candidates := some [] } = some []) ∧
    protocolFor geminiConfig = .gemini ∧
    makeApiCall geminiConfig
        (fun _ => .response { status := 200, text := "", json := { candidates := some [] } })
        owDown =
      { result := .error .geminiUnexpectedFormat, attemptsUsed := 3, waits := [4, 4] } :=
  ⟨Or.inr rfl, rfl,
    (gemini_format_error_retried geminiConfig { candidates := some [] } "" 60 owDown
      (Or.inr rfl) rfl).2⟩

/-- C8: with the limit N, get_session_messages returns the N oldest query
messages of the session in ascending creation order: the result is the
N-prefix of the ascending sort, that prefix is sorted ascending, and every
returned message is no newer than every dropped one. -/
theorem limit_returns_oldest (db : Database) (session_id user_id n : Nat)
    (h : ∃ s, get_session_by_id db session_id user_id = some s) :
    get_session_messages db session_id user_id (some n) =
      ((List.insertionSort createdAtLe (sessionQueryMessages db session_id)).take n).map
        (fun m => { message := m, response := responseFor db m }) ∧
    List.Sorted createdAtLe
      ((List.insertionSort createdAtLe (sessionQueryMessages db session_id)).take n) ∧
    ∀ x ∈ (List.insertionSort createdAtLe (sessionQueryMessages db session_id)).take n,
      ∀ y ∈ (List.insertionSort createdAtLe (sessionQueryMessages db session_id)).drop n,
        x.created_at ≤ y.created_at := by
  obtain ⟨s, hs⟩ := h
  refine ⟨?_, ?_, ?_⟩
  · simp only [get_session_messages, hs]
  · exact List.Pairwise.sublist (List.take_sublist n _)
      (List.sorted_insertionSort createdAtLe _)
  · intro x hx y hy
    exact (List.sorted_insertionSort createdAtLe _).rel_of_mem_take_of_mem_drop hx hy

/-- witness for C8: in a session whose stored messages are newer-first with
creation times 9 and 5, limit 1 returns the time-5 message, not the most
recent one. -/
theorem limit_returns_oldest_witness :
    (∃ s, get_session_by_id wDb 1 7 = some s) ∧
    get_session_messages wDb 1 7 (some 1) = [{ message := wMsgOld, response := none }] :=
  ⟨⟨wSession, rfl⟩,
    ((limit_returns_oldest wDb 1 7 1 ⟨wSession, rfl⟩).1).trans (by rfl)⟩

/-- C10: when no stored session matches both the session id and the user
id, get_session_messages returns the empty list rather than raising. -/
theorem missing_session_empty_history (db : Database) (session_id user_id : Nat)
    (limit : Option Nat)
    (h : ∀ s ∈ db.sessions, ¬(s.id = session_id ∧ s.user_id = user_id)) :
    get_session_messages db session_id user_id limit = [] := by
  have hfil : db.sessions.filter
      (fun s => s.id == session_id && s.user_id == user_id) = [] := by
    apply List.filter_eq_nil_iff.mpr
    intro s hs
    have hns := h s hs
    simp only [Bool.and_eq_true, beq_iff_eq]
    exact fun hcontra => hns hcontra
  have hnone : get_session_by_id db session_id user_id = none := by
    simp [get_session_by_id, hfil]
  simp [get_session_messages, hnone]

/-- witness for C10: asking for session 1 as user 8 in a store whose only
session 1 belongs to user 7 yields the empty history. -/
theorem missing_session_empty_history_witness :
    (∀ s ∈ wDb.sessions, ¬(s.id = 1 ∧ s.user_id = 8)) ∧
    get_session_messages wDb 1 8 (some 10) = [] :=
  ⟨by decide, missing_session_empty_history wDb 1 8 (some 10) (by decide)⟩

end Katalyst
